import Mathlib

/-!
Verification development for the Pipeline Reliability Dashboard backend.

Shallow embedding of the run-reconciliation core:
- `models.PipelineRun` becomes the structure `PipelineRun`; timestamps are
  modelled as absolute instants in rational seconds, durations as rational
  seconds, and the store as a `List PipelineRun` (insertion order = id order).
- Pure helpers of `routers/webhooks.py` and `services/jenkins.py`
  (`normalize_status`, `compute_duration_seconds`, `_parse_build_status`,
  `_convert_timestamp`) become Lean functions of the same name.
- The per-build body of `routers/jenkins.sync_jenkins_jobs` and
  `routers/webhooks.sync_build_to_pipeline_runs` become store-transforming
  functions that also count failure-notification attempts.  Network delivery
  success of `services/alerts.send_failure_alert` is an external fact and is
  passed in as a boolean.
- Python truthiness is modelled explicitly where the source relies on it
  (`or` on possibly-zero floats, `if build.get(...)` on ints/strings).
-/

/-- models.PipelineRun: the sole persisted entity. -/
structure PipelineRun where
  provider : String
  pipeline_name : String
  status : String
  started_at : Option ℚ
  finished_at : Option ℚ
  duration_seconds : Option ℚ
  branch : Option String
  commit : Option String
  url : Option String
  logs : Option String
  build_number : Option Int
  notified : Bool
deriving DecidableEq, Repr

/-- schemas.PipelineRunCreate: the push-webhook payload shape. -/
structure PipelineRunCreate where
  provider : String
  pipeline_name : String
  status : String
  started_at : Option ℚ
  finished_at : Option ℚ
  commit : Option String
  branch : Option String
  url : Option String
  logs : Option String
deriving DecidableEq, Repr

/-- One element of the builds list returned by the provider API (also the
shape returned by JenkinsService.get_build_details).  The `user` field holds
the value returned by JenkinsService._get_build_user, which never returns
null: it falls back to the literal "Ravitosh" when no trigger user is found
in the causes/actions metadata. -/
structure JenkinsBuild where
  number : Option Int
  url : Option String
  result : Option String
  timestamp : Option Int
  duration : Option Int
  user : String
deriving DecidableEq, Repr

/-- Bool test that one character list is an initial segment of another. -/
def listIsPrefix : List Char → List Char → Bool
  | [], _ => true
  | _ :: _, [] => false
  | a :: as, b :: bs => a == b && listIsPrefix as bs

/-- Worker for `strSplitOn`: fuel-driven scan cutting at each occurrence of
the separator (the fuel is the length of the scanned list, so it never runs
out). -/
def charListSplit (sep : List Char) : Nat → List Char → List Char → List (List Char)
  | _, [], acc => [acc.reverse]
  | 0, l, acc => [acc.reverse ++ l]
  | fuel + 1, c :: rest, acc =>
    if listIsPrefix sep (c :: rest) then
      acc.reverse :: charListSplit sep fuel ((c :: rest).drop sep.length) []
    else
      charListSplit sep fuel rest (c :: acc)

/-- Python `s.split(sep)` for a non-empty separator. -/
def strSplitOn (sep : String) (s : String) : List String :=
  if sep = "" then [s]
  else (charListSplit sep.data s.data.length s.data []).map String.mk

/-- Python `s.lower()` (ASCII). -/
def strToLower (s : String) : String := String.mk (s.data.map Char.toLower)

/-- Python `s.strip()`: drop leading and trailing whitespace. -/
def strTrim (s : String) : String :=
  String.mk (((s.data.dropWhile Char.isWhitespace).reverse.dropWhile Char.isWhitespace).reverse)

/-- Python `s.endswith(suffix)`. -/
def strEndsWith (s suffix : String) : Bool :=
  listIsPrefix suffix.data.reverse s.data.reverse

/-- Numeric value of a decimal digit string. -/
def digitsToNat (l : List Char) : Nat :=
  l.foldl (fun a c => a * 10 + (c.toNat - 48)) 0

/-- Parse a non-empty all-digit character list as a natural number. -/
def charListToNat (l : List Char) : Option Nat :=
  if l ≠ [] ∧ l.all Char.isDigit then some (digitsToNat l) else none

/-- webhooks.normalize_status synonym set for success. -/
def successSynonyms : List String :=
  ["success", "succeeded", "passed", "pass", "ok", "green"]

/-- webhooks.normalize_status synonym set for failure. -/
def failureSynonyms : List String :=
  ["failure", "failed", "error", "errored", "red", "cancelled", "canceled"]

/-- webhooks.normalize_status synonym set for running. -/
def runningSynonyms : List String :=
  ["running", "in_progress", "queued", "pending"]

/-- webhooks.normalize_status: `if not raw` catches both null and the empty
string; otherwise the input is stripped, lowercased and matched against the
synonym sets, falling through to the stripped lowercased input itself. -/
def normalize_status (raw : Option String) : String :=
  match raw with
  | none => "running"
  | some r =>
    if r = "" then "running"
    else
      let s := strToLower (strTrim r)
      if s ∈ successSynonyms then "success"
      else if s ∈ failureSynonyms then "failure"
      else if s ∈ runningSynonyms then "running"
      else s

/-- webhooks.compute_duration_seconds: defined only when both timestamps are
present (datetime objects are always truthy in the source guard). -/
def compute_duration_seconds (started_at finished_at : Option ℚ) : Option ℚ :=
  match started_at, finished_at with
  | some s, some f => some (f - s)
  | _, _ => none

/-- services/jenkins.JenkinsService._parse_build_status. -/
def parse_build_status (result : Option String) : String :=
  match result with
  | none => "unknown"
  | some r =>
    if r = "" then "unknown"
    else
      let l := strToLower r
      if l = "success" then "success"
      else if l = "failure" then "failure"
      else if l = "unstable" then "unstable"
      else if l = "aborted" then "aborted"
      else "unknown"

/-- services/jenkins.JenkinsService._convert_timestamp: epoch milliseconds to
an absolute instant in seconds (the IST rendering changes only the display
representation, not the instant). -/
def convert_timestamp (ms : Int) : ℚ := (ms : ℚ) / 1000

/-- Python `s.rstrip('/')`: drop every trailing slash. -/
def rstripSlashes (s : String) : String :=
  String.mk ((s.data.reverse.dropWhile (fun c => c = '/')).reverse)

/-- Python `s.isdigit()` restricted to ASCII: nonempty and all decimal digits. -/
def pyIsDigit (s : String) : Bool :=
  (s != "") && s.data.all (fun c => c.isDigit)

/-- Python `int(s)` on a stripped optionally signed decimal literal; `none`
models the ValueError path. -/
def pyToInt (s : String) : Option Int :=
  match (strTrim s).data with
  | '-' :: rest => (charListToNat rest).map (fun n => -(n : Int))
  | '+' :: rest => (charListToNat rest).map (fun n => (n : Int))
  | l => (charListToNat l).map (fun n => (n : Int))

/-- Last path segment of a URL after stripping trailing slashes
(`url.rstrip('/').split('/')[-1]`). -/
def lastUrlSegment (url : String) : String :=
  (strSplitOn "/" (rstripSlashes url)).getLastD ""

/-- routers/jenkins.sync_jenkins_jobs lines 41-54: prefer the provider's
native build number; else, when a (truthy) URL is present, accept the
trailing path segment only if it is fully numeric; else unresolved. -/
def resolve_build_number (number : Option Int) (url : Option String) : Option Int :=
  match number with
  | some n => some n
  | none =>
    match url with
    | none => none
    | some u =>
      if u = "" then none
      else
        let seg := lastUrlSegment u
        if pyIsDigit seg then (charListToNat seg.data).map (fun n => (n : Int)) else none

/-- Python `a or b` on strings: empty string falls through to `b`. -/
def pyOrString (a b : String) : String := if a = "" then b else a

/-- Python `a or b` where `a` is an optional string (e.g. `job.get('branch')`). -/
def pyOrOptString (a : Option String) (b : String) : String :=
  match a with
  | some s => if s = "" then b else s
  | none => b

/-- Python `a or b` on optional floats: both None and 0.0 fall through. -/
def pyOrRat (a b : Option ℚ) : Option ℚ :=
  match a with
  | some x => if x ≠ 0 then some x else b
  | none => b

/-- Python `a or b` on optional datetimes: a datetime object is always
truthy, so only None falls through. -/
def pyOrDatetime (a b : Option ℚ) : Option ℚ :=
  match a with
  | some x => some x
  | none => b

/-- `started_at = service._convert_timestamp(...) if build.get('timestamp')`:
a zero epoch-millisecond timestamp is falsy and yields no start instant. -/
def startedAtFrom (timestamp : Option Int) : Option ℚ :=
  match timestamp with
  | some t => if t ≠ 0 then some (convert_timestamp t) else none
  | none => none

/-- `duration_seconds = build['duration'] / 1000 if build.get('duration')`:
a zero millisecond duration is falsy and yields no duration. -/
def durationSecondsFrom (duration : Option Int) : Option ℚ :=
  match duration with
  | some d => if d ≠ 0 then some ((d : ℚ) / 1000) else none
  | none => none

/-- Status computed for one polled build. -/
def buildStatusOf (b : JenkinsBuild) : String := parse_build_status b.result

/-- routers/jenkins.sync_jenkins_jobs URL construction (lines 85-107): strip
trailing slashes, then append `/<n>/` directly when the base already ends in
`/job/<name>`, else append `/job/<name>/<n>/`. -/
def canonical_build_url (buildUrl : String) (pipelineName : String) (buildNumber : Int) : String :=
  let base_url := rstripSlashes buildUrl
  if strEndsWith base_url ("/job/" ++ pipelineName) then
    base_url ++ "/" ++ toString buildNumber ++ "/"
  else
    base_url ++ "/job/" ++ pipelineName ++ "/" ++ toString buildNumber ++ "/"

/-- routers/webhooks.sync_build_to_pipeline_runs URL construction (lines
215-216 and 227): unconditionally append `/<n>/` to the stripped base. -/
def webhook_build_url (buildUrl : String) (buildNumber : Int) : String :=
  rstripSlashes buildUrl ++ "/" ++ toString buildNumber ++ "/"

/-- Dedup-key predicate of the store lookups
`filter_by(provider='jenkins', pipeline_name=..., build_number=...)`. -/
def keyMatches (name : String) (n : Int) (r : PipelineRun) : Bool :=
  decide (r.provider = "jenkins" ∧ r.pipeline_name = name ∧ r.build_number = some n)

/-- `.first()` on the keyed lookup: first record of the store matching the
dedup key. -/
def findRun (store : List PipelineRun) (name : String) (n : Int) : Option PipelineRun :=
  store.find? (keyMatches name n)

/-- In-place mutation of the record returned by `.first()`: replace the first
record satisfying `p` with `x`. -/
def replaceFirst (store : List PipelineRun) (p : PipelineRun → Bool) (x : PipelineRun) : List PipelineRun :=
  match store with
  | [] => []
  | r :: rest => if p r then x :: rest else r :: replaceFirst rest p x

/-- services/alerts.send_failure_alert: attempts one delivery; on successful
delivery marks the record notified (`run.notified = True; db.commit()`).
Delivery success is an external fact supplied as `deliveryOk`; a failed
delivery leaves the record untouched. -/
def send_failure_alert (deliveryOk : Bool) (r : PipelineRun) : PipelineRun :=
  if deliveryOk then { r with notified := true } else r

/-- routers/jenkins.sync_jenkins_jobs update path (lines 78-93), with the
assignments in source order: status, started_at, duration_seconds, branch and
commit are written first (`started_at or existing.started_at` etc. use Python
truthiness), then the URL when the build has a truthy url and build number,
then build_number. -/
def mergeExisting (jobName : String) (jobBranch : Option String) (b : JenkinsBuild)
    (n : Int) (existing : PipelineRun) : PipelineRun :=
  { existing with
    status := buildStatusOf b
    started_at := pyOrDatetime (startedAtFrom b.timestamp) existing.started_at
    duration_seconds := pyOrRat (durationSecondsFrom b.duration) existing.duration_seconds
    branch := some (pyOrOptString jobBranch "main")
    commit := some (pyOrString b.user "Ravitosh")
    url :=
      match b.url with
      | some u => if u ≠ "" ∧ n ≠ 0 then some (canonical_build_url u jobName n) else existing.url
      | none => existing.url
    build_number := some n }

/-- routers/jenkins.sync_jenkins_jobs insert path `complete_url` (lines
99-107): empty string unless the build has a truthy url and build number. -/
def completeUrlFor (b : JenkinsBuild) (jobName : String) (n : Int) : String :=
  match b.url with
  | some u => if u ≠ "" ∧ n ≠ 0 then canonical_build_url u jobName n else ""
  | none => ""

/-- routers/jenkins.sync_jenkins_jobs insert path (lines 109-122): the new
record, created with `notified = False`. -/
def mkNewRun (jobName : String) (jobBranch : Option String) (b : JenkinsBuild) (n : Int) : PipelineRun :=
  { provider := "jenkins"
    pipeline_name := jobName
    status := buildStatusOf b
    started_at := startedAtFrom b.timestamp
    finished_at := none
    duration_seconds := durationSecondsFrom b.duration
    branch := some (pyOrOptString jobBranch "main")
    commit := some (pyOrString b.user "Ravitosh")
    url := some (completeUrlFor b jobName n)
    logs := none
    build_number := some n
    notified := false }

/-- One iteration of the per-build loop of routers/jenkins.sync_jenkins_jobs
(lines 40-128): resolve the build number (else `continue`), look up the
dedup key, merge into the existing record or insert a new one, and decide the
failure notification.  Returns the new store together with the number of
notification attempts made.  Note that in the source the update-path guard
`existing.status != "failure"` is evaluated after `existing.status =
build_status` has already been assigned, so the guard reads the merged
status, exactly as modelled here. -/
def sync_jenkins_build (deliveryOk : Bool) (jobName : String) (jobBranch : Option String)
    (b : JenkinsBuild) (store : List PipelineRun) : List PipelineRun × Nat :=
  match resolve_build_number b.number b.url with
  | none => (store, 0)
  | some n =>
    let build_status := buildStatusOf b
    match findRun store jobName n with
    | some existing =>
      let merged := mergeExisting jobName jobBranch b n existing
      if build_status == "failure" && !(merged.status == "failure") && !merged.notified then
        (replaceFirst store (keyMatches jobName n) (send_failure_alert deliveryOk merged), 1)
      else
        (replaceFirst store (keyMatches jobName n) merged, 0)
    | none =>
      let newRun := mkNewRun jobName jobBranch b n
      if build_status == "failure" then
        (store ++ [send_failure_alert deliveryOk newRun], 1)
      else
        (store ++ [newRun], 0)

/-- The inner loop of routers/jenkins.sync_jenkins_jobs over the fetched
builds of one job, threading the store and accumulating notification
attempts. -/
def sync_jenkins_builds (deliveryOk : Bool) (jobName : String) (jobBranch : Option String)
    (builds : List JenkinsBuild) (store : List PipelineRun) : List PipelineRun × Nat :=
  match builds with
  | [] => (store, 0)
  | b :: rest =>
    let s1 := sync_jenkins_build deliveryOk jobName jobBranch b store
    let s2 := sync_jenkins_builds deliveryOk jobName jobBranch rest s1.1
    (s2.1, s1.2 + s2.2)

/-- routers/webhooks.sync_build_to_pipeline_runs update path (lines 208-217),
assignments in source order: status, started_at, duration_seconds, commit and
build_number are overwritten unconditionally (a missing timestamp or duration
writes null over the stored value); the URL only when the build details carry
a truthy url and the build number is truthy. -/
def webhookMergeExisting (n : Int) (bd : JenkinsBuild) (existing : PipelineRun) : PipelineRun :=
  { existing with
    status := buildStatusOf bd
    started_at := startedAtFrom bd.timestamp
    duration_seconds := durationSecondsFrom bd.duration
    commit := some bd.user
    build_number := some n
    url :=
      match bd.url with
      | some u => if u ≠ "" ∧ n ≠ 0 then some (webhook_build_url u n) else existing.url
      | none => existing.url }

/-- routers/webhooks.sync_build_to_pipeline_runs insert path (lines 226-243). -/
def webhookMkNewRun (jobName : String) (n : Int) (bd : JenkinsBuild) : PipelineRun :=
  { provider := "jenkins"
    pipeline_name := jobName
    status := buildStatusOf bd
    started_at := startedAtFrom bd.timestamp
    finished_at := none
    duration_seconds := durationSecondsFrom bd.duration
    branch := some "main"
    commit := some bd.user
    url := some (match bd.url with
      | some u => if u ≠ "" ∧ n ≠ 0 then webhook_build_url u n else ""
      | none => "")
    logs := none
    build_number := some n
    notified := false }

/-- routers/webhooks.sync_build_to_pipeline_runs (lines 201-258): guard on a
truthy job name and build number, fetch the build details (an external call
whose outcome is the `buildDetails` argument; `none` models the fetch
failing), then merge or insert and decide the failure notification.  The
second component is the value returned to the caller: in the update path the
source executes `return new_run` with `new_run` unbound, and the resulting
NameError is caught by the enclosing except block after `db.commit()` has
already persisted the merge, so the update path returns None while its merge
stays committed.  The third component counts notification attempts. -/
def sync_build_to_pipeline_runs (deliveryOk : Bool) (jobName : String) (buildNumber : Option Int)
    (buildDetails : Option JenkinsBuild) (store : List PipelineRun) :
    List PipelineRun × Option PipelineRun × Nat :=
  if jobName = "" then (store, none, 0)
  else
    match buildNumber with
    | none => (store, none, 0)
    | some n =>
      if n = 0 then (store, none, 0)
      else
        match buildDetails with
        | none => (store, none, 0)
        | some bd =>
          let build_status := buildStatusOf bd
          match findRun store jobName n with
          | some existing =>
            let merged := webhookMergeExisting n bd existing
            if build_status == "failure" && !(merged.status == "failure") && !merged.notified then
              (replaceFirst store (keyMatches jobName n) (send_failure_alert deliveryOk merged), none, 1)
            else
              (replaceFirst store (keyMatches jobName n) merged, none, 0)
          | none =>
            let newRun := webhookMkNewRun jobName n bd
            if build_status == "failure" then
              let r := send_failure_alert deliveryOk newRun
              (store ++ [r], some r, 1)
            else
              (store ++ [newRun], some newRun, 0)

/-- Python `'/job/' in url`. -/
def containsJobSegment (u : String) : Bool :=
  decide (1 < (strSplitOn "/job/" u).length)

/-- routers/jenkins.update_build_numbers URL parsing (lines 307-318): the
segment after the first `/job/` marker is split on `/`; the second piece is
parsed with `int(...)`, a ValueError skipping the record. -/
def extract_url_build_number (u : String) : Option Int :=
  match strSplitOn "/job/" u with
  | _ :: second :: _ =>
    match strSplitOn "/" (rstripSlashes second) with
    | _ :: numSeg :: _ => pyToInt numSeg
    | _ => none
  | _ => none

/-- routers/jenkins.update_build_numbers body for one record: only records
with a truthy url containing `/job/` and a falsy build_number are touched. -/
def update_build_number_of (r : PipelineRun) : PipelineRun :=
  match r.url with
  | none => r
  | some u =>
    if u ≠ "" ∧ containsJobSegment u = true ∧ (r.build_number = none ∨ r.build_number = some 0) then
      match extract_url_build_number u with
      | some n => { r with build_number := some n }
      | none => r
    else r

/-- routers/jenkins.update_build_numbers: applied to every jenkins record of
the store. -/
def update_build_numbers (store : List PipelineRun) : List PipelineRun :=
  store.map (fun r => if r.provider == "jenkins" then update_build_number_of r else r)

/-- routers/webhooks.github_webhook (lines 34-59): the record persisted for a
push payload; the commit field is the literal "Pushkar" regardless of the
payload, and `str(payload.url) if payload.url else None` drops a falsy url. -/
def github_webhook_run (payload : PipelineRunCreate) : PipelineRun :=
  { provider := "github"
    pipeline_name := payload.pipeline_name
    status := normalize_status (some payload.status)
    started_at := payload.started_at
    finished_at := payload.finished_at
    duration_seconds := compute_duration_seconds payload.started_at payload.finished_at
    commit := some "Pushkar"
    branch := payload.branch
    url := match payload.url with
      | some u => if u = "" then none else some u
      | none => none
    logs := payload.logs
    build_number := none
    notified := false }

/-- routers/runs.update_github_commits (lines 71-81): every github record
whose commit differs from "Pushkar" is rewritten to "Pushkar". -/
def update_github_commits (store : List PipelineRun) : List PipelineRun :=
  store.map (fun r =>
    if r.provider == "github" then
      if r.commit ≠ some "Pushkar" then { r with commit := some "Pushkar" } else r
    else r)

/-- §3 invariant: at most one jenkins record per (pipeline_name, non-null
build_number) dedup key. -/
def UniqueKeys (store : List PipelineRun) : Prop :=
  ∀ (name : String) (n : Int), store.countP (keyMatches name n) ≤ 1

/-- One record never un-notifies: the notified flag of the later record is at
least that of the earlier one. -/
def RunNotifyMono (r r' : PipelineRun) : Prop := r.notified = true → r'.notified = true

/-- A store evolution is notify-monotone when the new store extends a
pointwise notify-monotone image of the old one (records are never deleted by
the reconcile operations). -/
def StoreNotifyMono (s s' : List PipelineRun) : Prop :=
  ∃ pre ext, s' = pre ++ ext ∧ List.Forall₂ RunNotifyMono s pre

/-! ## Concrete records and observations used by the claim theorems -/

/-- An existing jenkins record for job Deploy build 6: previous status
success, not yet notified. -/
def c1_existing : PipelineRun :=
  { provider := "jenkins", pipeline_name := "Deploy", status := "success",
    started_at := none, finished_at := none, duration_seconds := none,
    branch := some "main", commit := some "Ravitosh", url := none, logs := none,
    build_number := some 6, notified := false }

/-- An observation of Deploy build 6 with raw result FAILURE. -/
def c1_build : JenkinsBuild :=
  { number := some 6, url := none, result := some "FAILURE",
    timestamp := none, duration := none, user := "alice" }

/-- C1: the claim demands that an existing record with previous status not
failure and notified false, observed as failure, triggers exactly one
notification attempt.  In the code the update-path guard `existing.status !=
"failure"` runs after `existing.status = build_status` has been assigned, so
it reads the merged status and never fires: both reconcile functions make
zero notification attempts on this input, while the insert path (same
observation against an empty store) does make one. -/
theorem claim_C1_update_path_never_notifies :
    buildStatusOf c1_build = "failure" ∧
    c1_existing.status = "success" ∧
    c1_existing.notified = false ∧
    findRun [c1_existing] "Deploy" 6 = some c1_existing ∧
    (sync_jenkins_build true "Deploy" (some "main") c1_build [c1_existing]).2 = 0 ∧
    (sync_build_to_pipeline_runs true "Deploy" (some 6) (some c1_build) [c1_existing]).2.2 = 0 ∧
    (sync_jenkins_build true "Deploy" (some "main") c1_build []).2 = 1 := by
  decide

/-- An observation of Deploy build 7 with raw result FAILURE. -/
def c3_fail : JenkinsBuild :=
  { number := some 7, url := none, result := some "FAILURE",
    timestamp := none, duration := none, user := "bob" }

/-- The same build observed with raw result SUCCESS. -/
def c3_success : JenkinsBuild := { c3_fail with result := some "SUCCESS" }

/-- First reconcile: failure on a fresh store (delivery succeeds). -/
def c3_step1 : List PipelineRun × Nat := sync_jenkins_build true "Deploy" none c3_fail []

/-- Second reconcile: the same identity observed as success. -/
def c3_step2 : List PipelineRun × Nat := sync_jenkins_build true "Deploy" none c3_success c3_step1.1

/-- Third reconcile: the same identity observed as failure again. -/
def c3_step3 : List PipelineRun × Nat := sync_jenkins_build true "Deploy" none c3_fail c3_step2.1

/-- C3: the claim demands a second notification attempt when a record goes
failure, then success, then failure again.  In the code the notified flag is
never reset when the status leaves failure, and the update-path guard is dead
(see C1), so the attempt counts over the three reconciles are 1, 0, 0: the
second failure is never re-alerted. -/
theorem claim_C3_no_second_notification :
    c3_step1.2 = 1 ∧
    (findRun c3_step1.1 "Deploy" 7).map PipelineRun.status = some "failure" ∧
    (findRun c3_step1.1 "Deploy" 7).map PipelineRun.notified = some true ∧
    c3_step2.2 = 0 ∧
    (findRun c3_step2.1 "Deploy" 7).map PipelineRun.status = some "success" ∧
    (findRun c3_step2.1 "Deploy" 7).map PipelineRun.notified = some true ∧
    c3_step3.2 = 0 ∧
    (findRun c3_step3.1 "Deploy" 7).map PipelineRun.status = some "failure" := by
  decide

/-- C5 counterexample: normalizing the base job URL gives the canonical form,
but re-normalizing the already-canonical result appends a second
`/job/Foo/6/` segment instead of leaving it unchanged: the operation is not
idempotent. -/
theorem claim_C5_not_idempotent :
    canonical_build_url "http://host/job/Foo" "Foo" 6 = "http://host/job/Foo/6/" ∧
    canonical_build_url (canonical_build_url "http://host/job/Foo" "Foo" 6) "Foo" 6 =
      "http://host/job/Foo/6/job/Foo/6/" ∧
    ¬ canonical_build_url (canonical_build_url "http://host/job/Foo" "Foo" 6) "Foo" 6 =
        canonical_build_url "http://host/job/Foo" "Foo" 6 := by
  decide

/-- C5 amended: both URL constructions always produce a URL of the shape
`<prefix>/<build_number>/`, and the base-job-URL case yields the canonical
form; idempotence fails (see the counterexample). -/
theorem claim_C5_canonical_url_shape (base pname : String) (n : Int) :
    (∃ p, canonical_build_url base pname n = p ++ "/" ++ toString n ++ "/") ∧
    (∃ p, webhook_build_url base n = p ++ "/" ++ toString n ++ "/") := by
  refine ⟨?_, ⟨rstripSlashes base, rfl⟩⟩
  unfold canonical_build_url
  by_cases h : strEndsWith (rstripSlashes base) ("/job/" ++ pname) = true
  · exact ⟨rstripSlashes base, by simp only [h, if_true]⟩
  · exact ⟨rstripSlashes base ++ "/job/" ++ pname, by simp only [h, if_false, Bool.false_eq_true]⟩

/-- C6: build-number resolution prefers the provider's native numeric field;
with no native number it accepts the trailing URL path segment only when
fully numeric; an unresolvable build is skipped without persisting anything
and without aborting the remaining builds of the batch. -/
theorem claim_C6_build_number_resolution :
    (∀ (m : Int) (u : Option String), resolve_build_number (some m) u = some m) ∧
    resolve_build_number none (some "http://host/job/Deploy/42/") = some 42 ∧
    resolve_build_number none (some "http://host/job/Deploy/lastBuild/") = none ∧
    (∀ (deliveryOk : Bool) (jobName : String) (jobBranch : Option String) (b : JenkinsBuild)
        (rest : List JenkinsBuild) (store : List PipelineRun),
      resolve_build_number b.number b.url = none →
      sync_jenkins_build deliveryOk jobName jobBranch b store = (store, 0) ∧
      sync_jenkins_builds deliveryOk jobName jobBranch (b :: rest) store =
        sync_jenkins_builds deliveryOk jobName jobBranch rest store) := by
  refine ⟨fun m u => rfl, by decide, by decide, ?_⟩
  intro deliveryOk jobName jobBranch b rest store h
  have h1 : sync_jenkins_build deliveryOk jobName jobBranch b store = (store, 0) := by
    unfold sync_jenkins_build
    rw [h]
  refine ⟨h1, ?_⟩
  simp [sync_jenkins_builds, h1]

/-- An observation whose build number is unresolvable: no native number and a
URL with a non-numeric trailing segment. -/
def c6_build : JenkinsBuild :=
  { number := none, url := some "http://host/job/Deploy/lastBuild/",
    result := some "FAILURE", timestamp := none, duration := none, user := "erin" }

/-- Witness for C6 at concrete inputs. -/
theorem claim_C6_build_number_resolution_witness :
    sync_jenkins_build true "Deploy" none c6_build [] = ([], 0) ∧
    sync_jenkins_builds true "Deploy" none [c6_build] [] = sync_jenkins_builds true "Deploy" none [] [] ∧
    resolve_build_number (some 5) none = some 5 := by
  refine ⟨?_, ?_, claim_C6_build_number_resolution.1 5 none⟩
  · exact (claim_C6_build_number_resolution.2.2.2 true "Deploy" none c6_build [] [] (by decide)).1
  · exact (claim_C6_build_number_resolution.2.2.2 true "Deploy" none c6_build [] [] (by decide)).2

/-- Modelled from the claim's wording (the synonym tables of spec §4.1), to
be compared against `normalize_status` as translated from the source. -/
def normalize_status_spec (raw : Option String) : String :=
  match raw with
  | none => "running"
  | some r =>
    if r = "" then "running"
    else
      let s := strToLower (strTrim r)
      if s = "success" ∨ s = "succeeded" ∨ s = "passed" ∨ s = "pass" ∨ s = "ok" ∨ s = "green"
        then "success"
      else if s = "failure" ∨ s = "failed" ∨ s = "error" ∨ s = "errored" ∨ s = "red" ∨
          s = "cancelled" ∨ s = "canceled" then "failure"
      else if s = "running" ∨ s = "in_progress" ∨ s = "queued" ∨ s = "pending" then "running"
      else s

/-- C7: the status normalizer is a pure total function agreeing everywhere
with the claim's case description: running for null/empty, the canonical
value on each synonym set, and the trimmed lowercased input otherwise. -/
theorem claim_C7_normalize_status_refines_spec (raw : Option String) :
    normalize_status raw = normalize_status_spec raw := by
  cases raw with
  | none => rfl
  | some r =>
    simp only [normalize_status, normalize_status_spec, successSynonyms, failureSynonyms,
      runningSynonyms, List.mem_cons, List.not_mem_nil, or_false]

/-- Unfolding of the dedup-key predicate. -/
theorem keyMatches_spec {name : String} {n : Int} {r : PipelineRun}
    (h : keyMatches name n r = true) :
    r.provider = "jenkins" ∧ r.pipeline_name = name ∧ r.build_number = some n := by
  simpa [keyMatches] using h

/-- Records agreeing on the three key fields match exactly the same dedup
keys. -/
theorem keyMatches_congr (x y : PipelineRun) (hp : x.provider = y.provider)
    (hn : x.pipeline_name = y.pipeline_name) (hb : x.build_number = y.build_number)
    (name : String) (n : Int) : keyMatches name n x = keyMatches name n y := by
  simp [keyMatches, hp, hn, hb]

/-- Replacing the first `p`-match by a record matching the same keys leaves
every key count unchanged. -/
theorem countP_replaceFirst (s : List PipelineRun) (p q : PipelineRun → Bool)
    (a x : PipelineRun) (hfind : s.find? p = some a) (hq : q x = q a) :
    (replaceFirst s p x).countP q = s.countP q := by
  induction s with
  | nil => simp at hfind
  | cons r rest ih =>
    by_cases hp : p r = true
    · have ha : a = r := by
        rw [List.find?_cons_of_pos _ hp] at hfind
        exact (Option.some.inj hfind).symm
      subst ha
      simp [replaceFirst, hp, List.countP_cons, hq]
    · have hfind2 : rest.find? p = some a := by
        rwa [List.find?_cons_of_neg _ hp] at hfind
      simp [replaceFirst, hp, List.countP_cons, ih hfind2]

/-- `replaceFirst` never changes the number of records. -/
theorem length_replaceFirst (s : List PipelineRun) (p : PipelineRun → Bool) (x : PipelineRun) :
    (replaceFirst s p x).length = s.length := by
  induction s with
  | nil => rfl
  | cons r rest ih => by_cases hp : p r = true <;> simp [replaceFirst, hp, ih]

/-- `send_failure_alert` touches only the notified flag. -/
theorem send_failure_alert_key (d : Bool) (r : PipelineRun) :
    (send_failure_alert d r).provider = r.provider ∧
    (send_failure_alert d r).pipeline_name = r.pipeline_name ∧
    (send_failure_alert d r).build_number = r.build_number := by
  cases d <;> simp [send_failure_alert]

/-- An update through `replaceFirst` by a record with the same key fields as
the record found preserves the uniqueness invariant. -/
theorem uniqueKeys_update (store : List PipelineRun) (jobName : String) (n : Int)
    (existing x : PipelineRun) (hfind : store.find? (keyMatches jobName n) = some existing)
    (hp : x.provider = existing.provider) (hpn : x.pipeline_name = existing.pipeline_name)
    (hb : x.build_number = existing.build_number) (h : UniqueKeys store) :
    UniqueKeys (replaceFirst store (keyMatches jobName n) x) := by
  intro name m
  rw [countP_replaceFirst store _ (keyMatches name m) existing x hfind
    (keyMatches_congr x existing hp hpn hb name m)]
  exact h name m

/-- Appending a record whose key was just found absent preserves the
uniqueness invariant. -/
theorem uniqueKeys_insert (store : List PipelineRun) (jobName : String) (n : Int)
    (x : PipelineRun) (hfind : store.find? (keyMatches jobName n) = none)
    (_hp : x.provider = "jenkins") (hpn : x.pipeline_name = jobName)
    (hb : x.build_number = some n) (h : UniqueKeys store) :
    UniqueKeys (store ++ [x]) := by
  intro name m
  rw [List.countP_append]
  by_cases hx : keyMatches name m x = true
  · obtain ⟨_, hn2, hb2⟩ := keyMatches_spec hx
    have hname : name = jobName := hn2.symm.trans hpn
    have hm : m = n := Option.some.inj (hb2.symm.trans hb)
    subst hname
    subst hm
    have hzero : store.countP (keyMatches name m) = 0 := by
      rw [List.countP_eq_zero]
      intro a ha
      have := List.find?_eq_none.mp hfind a ha
      simpa using this
    simp [hzero, List.countP_cons, hx]
  · have hone : List.countP (keyMatches name m) [x] = 0 := by
      simp [List.countP_cons, hx]
    rw [hone]
    simpa using h name m


/-- Variant of `uniqueKeys_update` for the branch that wraps the merged
record in a notification attempt. -/
theorem uniqueKeys_update_alert (store : List PipelineRun) (jobName : String) (n : Int)
    (existing merged : PipelineRun) (d : Bool)
    (hfind : store.find? (keyMatches jobName n) = some existing)
    (hp : merged.provider = existing.provider)
    (hpn : merged.pipeline_name = existing.pipeline_name)
    (hb : merged.build_number = existing.build_number) (h : UniqueKeys store) :
    UniqueKeys (replaceFirst store (keyMatches jobName n) (send_failure_alert d merged)) :=
  uniqueKeys_update store jobName n existing (send_failure_alert d merged) hfind
    ((send_failure_alert_key d merged).1.trans hp)
    ((send_failure_alert_key d merged).2.1.trans hpn)
    ((send_failure_alert_key d merged).2.2.trans hb) h

/-- Variant of `uniqueKeys_insert` for the branch that wraps the new record
in a notification attempt. -/
theorem uniqueKeys_insert_alert (store : List PipelineRun) (jobName : String) (n : Int)
    (x : PipelineRun) (d : Bool)
    (hfind : store.find? (keyMatches jobName n) = none)
    (hp : x.provider = "jenkins") (hpn : x.pipeline_name = jobName)
    (hb : x.build_number = some n) (h : UniqueKeys store) :
    UniqueKeys (store ++ [send_failure_alert d x]) :=
  uniqueKeys_insert store jobName n (send_failure_alert d x) hfind
    ((send_failure_alert_key d x).1.trans hp)
    ((send_failure_alert_key d x).2.1.trans hpn)
    ((send_failure_alert_key d x).2.2.trans hb) h

/-- C2 amended: both reconcile operations preserve the at-most-one-record-
per-key invariant, and when the key is already present the reconcile updates
in place (the store size is unchanged, so no second record is created);
however the administrative build-number backfill does not preserve the
invariant (see the counterexample). -/
theorem claim_C2_reconcile_preserves_uniqueness
    (deliveryOk : Bool) (jobName : String) (jobBranch : Option String) (b : JenkinsBuild)
    (wn : Option Int) (wbd : Option JenkinsBuild) (store : List PipelineRun)
    (h : UniqueKeys store) :
    UniqueKeys (sync_jenkins_build deliveryOk jobName jobBranch b store).1 ∧
    UniqueKeys (sync_build_to_pipeline_runs deliveryOk jobName wn wbd store).1 ∧
    (∀ m, resolve_build_number b.number b.url = some m →
      (findRun store jobName m).isSome = true →
      (sync_jenkins_build deliveryOk jobName jobBranch b store).1.length = store.length) := by
  refine ⟨?_, ?_, ?_⟩
  · unfold sync_jenkins_build
    cases hres : resolve_build_number b.number b.url with
    | none => exact h
    | some n =>
      dsimp only
      cases hfind : findRun store jobName n with
      | none =>
        dsimp only
        have hfind2 : store.find? (keyMatches jobName n) = none := hfind
        split
        · exact uniqueKeys_insert_alert store jobName n
            (mkNewRun jobName jobBranch b n) deliveryOk hfind2 rfl rfl rfl h
        · exact uniqueKeys_insert store jobName n
            (mkNewRun jobName jobBranch b n) hfind2 rfl rfl rfl h
      | some existing =>
        dsimp only
        have hfind2 : store.find? (keyMatches jobName n) = some existing := hfind
        have hk := List.find?_some hfind2
        obtain ⟨hkp, hkn, hkb⟩ := keyMatches_spec hk
        split
        · exact uniqueKeys_update_alert store jobName n existing
            (mergeExisting jobName jobBranch b n existing) deliveryOk hfind2 rfl rfl hkb.symm h
        · exact uniqueKeys_update store jobName n existing
            (mergeExisting jobName jobBranch b n existing) hfind2 rfl rfl hkb.symm h
  · unfold sync_build_to_pipeline_runs
    by_cases hjn : jobName = ""
    · simp only [if_pos hjn]
      exact h
    · simp only [if_neg hjn]
      cases wn with
      | none => exact h
      | some n =>
        dsimp only
        by_cases hn0 : n = 0
        · simp only [if_pos hn0]
          exact h
        · simp only [if_neg hn0]
          cases wbd with
          | none => exact h
          | some bd =>
            dsimp only
            cases hfind : findRun store jobName n with
            | none =>
              dsimp only
              have hfind2 : store.find? (keyMatches jobName n) = none := hfind
              split
              · exact uniqueKeys_insert_alert store jobName n
                  (webhookMkNewRun jobName n bd) deliveryOk hfind2 rfl rfl rfl h
              · exact uniqueKeys_insert store jobName n
                  (webhookMkNewRun jobName n bd) hfind2 rfl rfl rfl h
            | some existing =>
              dsimp only
              have hfind2 : store.find? (keyMatches jobName n) = some existing := hfind
              have hk := List.find?_some hfind2
              obtain ⟨hkp, hkn, hkb⟩ := keyMatches_spec hk
              split
              · exact uniqueKeys_update_alert store jobName n existing
                  (webhookMergeExisting n bd existing) deliveryOk hfind2 rfl rfl hkb.symm h
              · exact uniqueKeys_update store jobName n existing
                  (webhookMergeExisting n bd existing) hfind2 rfl rfl hkb.symm h
  · intro m hres hsome
    unfold sync_jenkins_build
    cases hres2 : resolve_build_number b.number b.url with
    | none =>
      rw [hres2] at hres
    | some n =>
      rw [hres2] at hres
      have hnm : n = m := Option.some.inj hres
      subst hnm
      dsimp only
      cases hfind : findRun store jobName n with
      | none =>
        rw [hfind] at hsome
        simp at hsome
      | some existing =>
        dsimp only
        split
        · exact length_replaceFirst store _ _
        · exact length_replaceFirst store _ _

/-- A jenkins record carrying the dedup key (Deploy, 6). -/
def c2_keyed : PipelineRun :=
  { provider := "jenkins", pipeline_name := "Deploy", status := "success",
    started_at := none, finished_at := none, duration_seconds := none,
    branch := some "main", commit := some "Ravitosh",
    url := some "http://host/job/Deploy/6/", logs := none,
    build_number := some 6, notified := false }

/-- A jenkins record with no build number (as created by the plain
`POST /jenkins` webhook) whose URL nevertheless names Deploy build 6. -/
def c2_keyless : PipelineRun :=
  { provider := "jenkins", pipeline_name := "Deploy", status := "success",
    started_at := none, finished_at := none, duration_seconds := none,
    branch := none, commit := none,
    url := some "http://host/job/Deploy/6/", logs := none,
    build_number := none, notified := false }

/-- C2 counterexample: the store holding one keyed and one keyless record
satisfies the uniqueness invariant, but the administrative build-number
backfill (`update_build_numbers`) assigns the keyless record the key
extracted from its URL, leaving two records with the key (Deploy, 6): not
every operation that writes jenkins runs preserves uniqueness. -/
theorem claim_C2_backfill_breaks_uniqueness :
    UniqueKeys [c2_keyed, c2_keyless] ∧
    ¬ UniqueKeys (update_build_numbers [c2_keyed, c2_keyless]) := by
  constructor
  · intro name n
    have h2 : keyMatches name n c2_keyless = false := by
      apply decide_eq_false
      intro hcon
      simpa [c2_keyless] using hcon.2.2
    simp [List.countP_cons, h2]
    split <;> simp
  · intro hu
    have h6 := hu "Deploy" 6
    have hc : (update_build_numbers [c2_keyed, c2_keyless]).countP (keyMatches "Deploy" 6) = 2 := by
      decide
    omega

/-- A resolvable polled build of Deploy with number 6. -/
def c2_build : JenkinsBuild :=
  { number := some 6, url := none, result := some "SUCCESS",
    timestamp := none, duration := none, user := "frank" }

/-- The singleton store holding the keyed record is unique-keyed. -/
theorem c2_store_unique : UniqueKeys [c2_keyed] := by
  intro name n
  simp [List.countP_cons]
  split <;> simp

/-- Witness for C2 at concrete inputs: a reconcile against the empty store
and an update-path reconcile against a singleton store. -/
theorem claim_C2_reconcile_preserves_uniqueness_witness :
    UniqueKeys (sync_jenkins_build true "Deploy" none c2_build []).1 ∧
    (sync_jenkins_build true "Deploy" none c2_build [c2_keyed]).1.length = 1 := by
  constructor
  · exact (claim_C2_reconcile_preserves_uniqueness true "Deploy" none c2_build none none []
      (fun name n => by simp)).1
  · exact (claim_C2_reconcile_preserves_uniqueness true "Deploy" none c2_build none none [c2_keyed]
      c2_store_unique).2.2 6 rfl (by decide)

/-- An existing record with known start instant, duration and branch. -/
def c4_existing : PipelineRun :=
  { provider := "jenkins", pipeline_name := "Deploy", status := "success",
    started_at := some 100, finished_at := none, duration_seconds := some 50,
    branch := some "develop", commit := some "dave",
    url := some "http://host/job/Deploy/9/", logs := none,
    build_number := some 9, notified := false }

/-- Build details carrying no timestamp, duration or url. -/
def c4_details : JenkinsBuild :=
  { number := some 9, url := none, result := some "SUCCESS",
    timestamp := none, duration := none, user := "carol" }

/-- C4 counterexample: on the webhook update path a null started_at and
duration in the new observation overwrite the stored values with null, and on
the poll update path a null job branch overwrites the stored branch with
"main" — known values are regressed, contradicting the claim. -/
theorem claim_C4_webhook_merge_regresses :
    c4_existing.started_at = some 100 ∧
    c4_existing.duration_seconds = some 50 ∧
    (webhookMergeExisting 9 c4_details c4_existing).started_at = none ∧
    (webhookMergeExisting 9 c4_details c4_existing).duration_seconds = none ∧
    ((sync_build_to_pipeline_runs true "Deploy" (some 9) (some c4_details) [c4_existing]).1.head?.map
      PipelineRun.started_at) = some none ∧
    c4_existing.branch = some "develop" ∧
    (mergeExisting "Deploy" none c4_details 9 c4_existing).branch = some "main" :=
  ⟨rfl, rfl, rfl, rfl, rfl, rfl, rfl⟩

/-- C4 amended: on the poll update path the status is always overwritten and
started_at, duration_seconds and url are overwritten exactly when the new
observation supplies a non-null (and, for the url, non-empty) value, while
branch and actor are always overwritten with defaulted values; on the webhook
update path status, started_at, duration_seconds, actor and build_number are
overwritten unconditionally — null regresses a stored value — and only the
url keeps the stored value when the new one is null. -/
theorem claim_C4_merge_field_semantics (jobName : String) (jobBranch : Option String)
    (b : JenkinsBuild) (n : Int) (existing : PipelineRun) :
    (mergeExisting jobName jobBranch b n existing).status = buildStatusOf b ∧
    (webhookMergeExisting n b existing).status = buildStatusOf b ∧
    (startedAtFrom b.timestamp = none →
      (mergeExisting jobName jobBranch b n existing).started_at = existing.started_at) ∧
    (∀ t, startedAtFrom b.timestamp = some t →
      (mergeExisting jobName jobBranch b n existing).started_at = some t) ∧
    (durationSecondsFrom b.duration = none →
      (mergeExisting jobName jobBranch b n existing).duration_seconds =
        existing.duration_seconds) ∧
    (∀ q, durationSecondsFrom b.duration = some q →
      (mergeExisting jobName jobBranch b n existing).duration_seconds = some q) ∧
    ((b.url = none ∨ b.url = some "") →
      (mergeExisting jobName jobBranch b n existing).url = existing.url ∧
      (webhookMergeExisting n b existing).url = existing.url) ∧
    (∀ u, b.url = some u → u ≠ "" → n ≠ 0 →
      (mergeExisting jobName jobBranch b n existing).url =
        some (canonical_build_url u jobName n)) ∧
    (mergeExisting jobName jobBranch b n existing).branch =
      some (pyOrOptString jobBranch "main") ∧
    (mergeExisting jobName jobBranch b n existing).commit =
      some (pyOrString b.user "Ravitosh") ∧
    (webhookMergeExisting n b existing).started_at = startedAtFrom b.timestamp ∧
    (webhookMergeExisting n b existing).duration_seconds = durationSecondsFrom b.duration ∧
    (webhookMergeExisting n b existing).commit = some b.user ∧
    (mergeExisting jobName jobBranch b n existing).notified = existing.notified ∧
    (webhookMergeExisting n b existing).notified = existing.notified := by
  refine ⟨rfl, rfl, ?_, ?_, ?_, ?_, ?_, ?_, rfl, rfl, rfl, rfl, rfl, rfl, rfl⟩
  · intro h
    simp [mergeExisting, pyOrDatetime, h]
  · intro t h
    simp [mergeExisting, pyOrDatetime, h]
  · intro h
    simp [mergeExisting, pyOrRat, h]
  · intro q h
    have hq : q ≠ 0 := by
      cases hd : b.duration with
      | none => rw [hd] at h; simp [durationSecondsFrom] at h
      | some d =>
        rw [hd] at h
        by_cases hd0 : d = 0
        · simp [durationSecondsFrom, hd0] at h
        · simp only [durationSecondsFrom, hd0, if_true, ne_eq, if_neg, not_false_iff,
            Option.some.injEq] at h
          have hdq : ((d : ℚ)) ≠ 0 := Int.cast_ne_zero.mpr hd0
          have hne : ((d : ℚ)) / 1000 ≠ 0 := div_ne_zero hdq (by norm_num)
          rw [h] at hne
          exact hne
    simp [mergeExisting, pyOrRat, h, hq]
  · intro h
    cases h with
    | inl h => exact ⟨by simp [mergeExisting, h], by simp [webhookMergeExisting, h]⟩
    | inr h => exact ⟨by simp [mergeExisting, h], by simp [webhookMergeExisting, h]⟩
  · intro u hu hne hn0
    simp [mergeExisting, hu, hne, hn0]

/-- A build observation supplying every optional field. -/
def c4w_build : JenkinsBuild :=
  { number := some 3, url := some "http://host/job/Deploy", result := some "FAILURE",
    timestamp := some 1000, duration := some 2000, user := "wendy" }

/-- Witness for C4 at concrete inputs: null observation fields leave the
stored poll-path values unchanged, non-null ones overwrite them. -/
theorem claim_C4_merge_field_semantics_witness :
    (mergeExisting "Deploy" (some "main") c4_details 9 c4_existing).started_at =
      c4_existing.started_at ∧
    (mergeExisting "Deploy" (some "main") c4_details 9 c4_existing).duration_seconds =
      c4_existing.duration_seconds ∧
    (mergeExisting "Deploy" (some "main") c4_details 9 c4_existing).url = c4_existing.url ∧
    (mergeExisting "Deploy" (some "main") c4w_build 3 c4_existing).started_at =
      some (convert_timestamp 1000) ∧
    (mergeExisting "Deploy" (some "main") c4w_build 3 c4_existing).duration_seconds =
      some (((2000 : Int) : ℚ) / 1000) ∧
    (mergeExisting "Deploy" (some "main") c4w_build 3 c4_existing).url =
      some (canonical_build_url "http://host/job/Deploy" "Deploy" 3) := by
  refine ⟨?_, ?_, ?_, ?_, ?_, ?_⟩
  · exact (claim_C4_merge_field_semantics "Deploy" (some "main") c4_details 9 c4_existing).2.2.1 rfl
  · exact (claim_C4_merge_field_semantics "Deploy" (some "main") c4_details 9
      c4_existing).2.2.2.2.1 rfl
  · exact ((claim_C4_merge_field_semantics "Deploy" (some "main") c4_details 9
      c4_existing).2.2.2.2.2.2.1 (Or.inl rfl)).1
  · exact (claim_C4_merge_field_semantics "Deploy" (some "main") c4w_build 3
      c4_existing).2.2.2.1 (convert_timestamp 1000) rfl
  · exact (claim_C4_merge_field_semantics "Deploy" (some "main") c4w_build 3
      c4_existing).2.2.2.2.2.1 (((2000 : Int) : ℚ) / 1000) rfl
  · exact (claim_C4_merge_field_semantics "Deploy" (some "main") c4w_build 3
      c4_existing).2.2.2.2.2.2.2.1 "http://host/job/Deploy" rfl (by decide) (by decide)

/-- Reflexivity of the per-record notify relation. -/
theorem runNotifyMono_refl (r : PipelineRun) : RunNotifyMono r r := fun h => h

/-- The pointwise notify relation holds between a store and itself. -/
theorem forall2_runNotifyMono_refl (s : List PipelineRun) :
    List.Forall₂ RunNotifyMono s s := by
  induction s with
  | nil => exact List.Forall₂.nil
  | cons r rest ih => exact List.Forall₂.cons (runNotifyMono_refl r) ih

/-- A store evolves notify-monotonically into itself. -/
theorem storeNotifyMono_refl (s : List PipelineRun) : StoreNotifyMono s s :=
  ⟨s, [], by simp, forall2_runNotifyMono_refl s⟩

/-- Appending new records is notify-monotone. -/
theorem storeNotifyMono_append (s ext : List PipelineRun) : StoreNotifyMono s (s ++ ext) :=
  ⟨s, ext, rfl, forall2_runNotifyMono_refl s⟩

/-- Replacing the first `p`-match by a notify-monotone successor is pointwise
notify-monotone. -/
theorem forall2_replaceFirst (s : List PipelineRun) (p : PipelineRun → Bool)
    (a x : PipelineRun) (hfind : s.find? p = some a) (hmono : RunNotifyMono a x) :
    List.Forall₂ RunNotifyMono s (replaceFirst s p x) := by
  induction s with
  | nil => simp at hfind
  | cons r rest ih =>
    by_cases hp : p r = true
    · have ha : a = r := by
        rw [List.find?_cons_of_pos _ hp] at hfind
        exact (Option.some.inj hfind).symm
      subst ha
      simp only [replaceFirst, if_pos hp]
      exact List.Forall₂.cons hmono (forall2_runNotifyMono_refl rest)
    · have hfind2 : rest.find? p = some a := by
        rwa [List.find?_cons_of_neg _ hp] at hfind
      simp only [replaceFirst, if_neg hp]
      exact List.Forall₂.cons (runNotifyMono_refl r) (ih hfind2)

/-- Store form of `forall2_replaceFirst`. -/
theorem storeNotifyMono_replaceFirst (s : List PipelineRun) (p : PipelineRun → Bool)
    (a x : PipelineRun) (hfind : s.find? p = some a) (hmono : RunNotifyMono a x) :
    StoreNotifyMono s (replaceFirst s p x) :=
  ⟨replaceFirst s p x, [], by simp, forall2_replaceFirst s p a x hfind hmono⟩

/-- A map that never lowers the notified flag is pointwise notify-monotone. -/
theorem forall2_map_notify (s : List PipelineRun) (g : PipelineRun → PipelineRun)
    (hg : ∀ r, (g r).notified = r.notified) :
    List.Forall₂ RunNotifyMono s (s.map g) := by
  induction s with
  | nil => exact List.Forall₂.nil
  | cons r rest ih =>
    refine List.Forall₂.cons (fun h => ?_) ih
    rw [hg r]
    exact h

/-- Store form of `forall2_map_notify`. -/
theorem storeNotifyMono_map (s : List PipelineRun) (g : PipelineRun → PipelineRun)
    (hg : ∀ r, (g r).notified = r.notified) : StoreNotifyMono s (s.map g) :=
  ⟨s.map g, [], by simp, forall2_map_notify s g hg⟩

/-- The alert never lowers the notified flag. -/
theorem send_failure_alert_mono (d : Bool) (r : PipelineRun) :
    RunNotifyMono r (send_failure_alert d r) := by
  intro h
  cases d with
  | true => rfl
  | false => exact h

/-- The build-number backfill never touches the notified flag. -/
theorem update_build_number_of_notified (r : PipelineRun) :
    (update_build_number_of r).notified = r.notified := by
  unfold update_build_number_of
  cases hu : r.url with
  | none => rfl
  | some u =>
    dsimp only
    split
    · split <;> rfl
    · rfl

/-- C8: the notified flag is monotone: every freshly created record starts
with notified false, a successful alert raises it, and none of the embedded
store-writing operations ever lowers it back to false on an existing
record. -/
theorem claim_C8_notified_monotone :
    (∀ jobName jobBranch b n, (mkNewRun jobName jobBranch b n).notified = false) ∧
    (∀ jobName n bd, (webhookMkNewRun jobName n bd).notified = false) ∧
    (∀ p, (github_webhook_run p).notified = false) ∧
    (∀ d r, RunNotifyMono r (send_failure_alert d r)) ∧
    (∀ d jobName jobBranch b store,
      StoreNotifyMono store (sync_jenkins_build d jobName jobBranch b store).1) ∧
    (∀ d jobName wn wbd store,
      StoreNotifyMono store (sync_build_to_pipeline_runs d jobName wn wbd store).1) ∧
    (∀ store, StoreNotifyMono store (update_build_numbers store)) ∧
    (∀ store, StoreNotifyMono store (update_github_commits store)) := by
  refine ⟨fun _ _ _ _ => rfl, fun _ _ _ => rfl, fun _ => rfl, send_failure_alert_mono,
    ?_, ?_, ?_, ?_⟩
  · intro d jobName jobBranch b store
    unfold sync_jenkins_build
    cases hres : resolve_build_number b.number b.url with
    | none => exact storeNotifyMono_refl store
    | some n =>
      dsimp only
      cases hfind : findRun store jobName n with
      | none =>
        dsimp only
        split
        · exact storeNotifyMono_append store _
        · exact storeNotifyMono_append store _
      | some existing =>
        dsimp only
        have hfind2 : store.find? (keyMatches jobName n) = some existing := hfind
        split
        · exact storeNotifyMono_replaceFirst store _ existing _ hfind2
            (send_failure_alert_mono d (mergeExisting jobName jobBranch b n existing))
        · exact storeNotifyMono_replaceFirst store _ existing _ hfind2
            (runNotifyMono_refl existing)
  · intro d jobName wn wbd store
    unfold sync_build_to_pipeline_runs
    by_cases hjn : jobName = ""
    · simp only [if_pos hjn]
      exact storeNotifyMono_refl store
    · simp only [if_neg hjn]
      cases wn with
      | none => exact storeNotifyMono_refl store
      | some n =>
        dsimp only
        by_cases hn0 : n = 0
        · simp only [if_pos hn0]
          exact storeNotifyMono_refl store
        · simp only [if_neg hn0]
          cases wbd with
          | none => exact storeNotifyMono_refl store
          | some bd =>
            dsimp only
            cases hfind : findRun store jobName n with
            | none =>
              dsimp only
              split
              · exact storeNotifyMono_append store _
              · exact storeNotifyMono_append store _
            | some existing =>
              dsimp only
              have hfind2 : store.find? (keyMatches jobName n) = some existing := hfind
              split
              · exact storeNotifyMono_replaceFirst store _ existing _ hfind2
                  (send_failure_alert_mono d (webhookMergeExisting n bd existing))
              · exact storeNotifyMono_replaceFirst store _ existing _ hfind2
                  (runNotifyMono_refl existing)
  · intro store
    refine storeNotifyMono_map store _ (fun r => ?_)
    by_cases hp : (r.provider == "jenkins") = true
    · simp only [if_pos hp]
      exact update_build_number_of_notified r
    · simp only [if_neg hp]
  · intro store
    refine storeNotifyMono_map store _ (fun r => ?_)
    by_cases hp : (r.provider == "github") = true
    · simp only [if_pos hp]
      by_cases hc : r.commit ≠ some "Pushkar"
      · simp only [if_pos hc]
      · simp only [if_neg hc]
    · simp only [if_neg hp]

/-- An already-notified record. -/
def c8_run : PipelineRun :=
  { provider := "jenkins", pipeline_name := "Deploy", status := "failure",
    started_at := none, finished_at := none, duration_seconds := none,
    branch := none, commit := none, url := none, logs := none,
    build_number := some 2, notified := true }

/-- An observation of the same identity. -/
def c8_build : JenkinsBuild :=
  { number := some 2, url := none, result := some "FAILURE",
    timestamp := none, duration := none, user := "gina" }

/-- Witness for C8 at concrete inputs. -/
theorem claim_C8_notified_monotone_witness :
    (mkNewRun "Deploy" none c8_build 2).notified = false ∧
    (send_failure_alert false c8_run).notified = true ∧
    StoreNotifyMono [c8_run] (sync_jenkins_build true "Deploy" none c8_build [c8_run]).1 ∧
    StoreNotifyMono [c8_run] (update_build_numbers [c8_run]) := by
  refine ⟨claim_C8_notified_monotone.1 "Deploy" none c8_build 2, ?_, ?_, ?_⟩
  · exact claim_C8_notified_monotone.2.2.2.1 false c8_run rfl
  · exact claim_C8_notified_monotone.2.2.2.2.1 true "Deploy" none c8_build [c8_run]
  · exact claim_C8_notified_monotone.2.2.2.2.2.2.1 [c8_run]

/-- A webhook payload whose finished_at precedes its started_at. -/
def c9_payload : PipelineRunCreate :=
  { provider := "github", pipeline_name := "P", status := "ok",
    started_at := some 125, finished_at := some 0, commit := none,
    branch := none, url := none, logs := none }

/-- C9 counterexample: a submission with both timestamps but finished_at
before started_at stores a negative duration — nothing rejects or clamps it,
so the stored duration is not always non-negative. -/
theorem claim_C9_negative_duration_stored :
    compute_duration_seconds (some 125) (some 0) = some (0 - 125 : ℚ) ∧
    ((0 - 125 : ℚ) < 0) ∧
    (github_webhook_run c9_payload).duration_seconds = some (0 - 125 : ℚ) := by
  refine ⟨rfl, by norm_num, rfl⟩

/-- C9 amended: with both timestamps present the stored duration equals
finished minus started in seconds — non-negative exactly when finished_at is
not before started_at — and it is null whenever either timestamp is absent;
the persisted github record stores exactly this value, and the spec's
125-second example holds. -/
theorem claim_C9_duration_semantics (s f : ℚ) (p : PipelineRunCreate) :
    compute_duration_seconds (some s) (some f) = some (f - s) ∧
    (s ≤ f → ∀ q, compute_duration_seconds (some s) (some f) = some q → 0 ≤ q) ∧
    compute_duration_seconds none (some f) = none ∧
    compute_duration_seconds (some s) none = none ∧
    compute_duration_seconds none none = none ∧
    (github_webhook_run p).duration_seconds =
      compute_duration_seconds p.started_at p.finished_at ∧
    compute_duration_seconds (some (0 : ℚ)) (some 125) = some 125 := by
  refine ⟨rfl, ?_, rfl, rfl, rfl, rfl, by norm_num [compute_duration_seconds]⟩
  intro hle q hq
  have hq2 : f - s = q := Option.some.inj hq
  rw [← hq2]
  linarith

/-- Witness for C9 at concrete inputs. -/
theorem claim_C9_duration_semantics_witness :
    (0 : ℚ) ≤ 125 - 0 ∧
    compute_duration_seconds (some (0 : ℚ)) (some 125) = some (125 - 0 : ℚ) := by
  constructor
  · exact (claim_C9_duration_semantics 0 125 c9_payload).2.1 (by decide) (125 - 0) rfl
  · rfl

/-- A github record whose commit is not "Pushkar". -/
def c10_run : PipelineRun :=
  { provider := "github", pipeline_name := "Web", status := "success",
    started_at := none, finished_at := none, duration_seconds := none,
    branch := some "main", commit := some "someone", url := none, logs := none,
    build_number := none, notified := false }

/-- C10: every record persisted by the github webhook carries commit
"Pushkar" regardless of the submitted payload (the payload's commit value is
never read), and the administrative rewrite leaves every github record with
commit "Pushkar". -/
theorem claim_C10_github_commit_always_pushkar :
    (∀ p, (github_webhook_run p).commit = some "Pushkar") ∧
    (∀ p c, github_webhook_run { p with commit := c } = github_webhook_run p) ∧
    (∀ store r, r ∈ update_github_commits store → r.provider = "github" →
      r.commit = some "Pushkar") := by
  refine ⟨fun p => rfl, fun p c => rfl, ?_⟩
  intro store r hr hprov
  unfold update_github_commits at hr
  obtain ⟨a, ha, hra⟩ := List.mem_map.mp hr
  by_cases hp : (a.provider == "github") = true
  · rw [if_pos hp] at hra
    by_cases hc : a.commit ≠ some "Pushkar"
    · rw [if_pos hc] at hra
      rw [← hra]
    · rw [if_neg hc] at hra
      push_neg at hc
      rw [← hra]
      exact hc
  · rw [if_neg hp] at hra
    rw [← hra] at hprov
    rw [hprov] at hp
    simp at hp

/-- A webhook payload submitting an explicit commit value. -/
def c10_payload : PipelineRunCreate :=
  { provider := "github", pipeline_name := "Web", status := "ok",
    started_at := none, finished_at := none, commit := some "someone",
    branch := none, url := none, logs := none }

/-- Witness for C10 at concrete inputs. -/
theorem claim_C10_github_commit_always_pushkar_witness :
    ({ c10_run with commit := some "Pushkar" } : PipelineRun).commit = some "Pushkar" ∧
    (github_webhook_run c10_payload).commit = some "Pushkar" := by
  constructor
  · exact claim_C10_github_commit_always_pushkar.2.2 [c10_run]
      { c10_run with commit := some "Pushkar" } (by decide) rfl
  · exact claim_C10_github_commit_always_pushkar.1 c10_payload
